import Mathlib

/-!
Shallow embedding of the cricket shot-outcome engine
(`src/engine/game_engine.py`) and verification of the frozen claims.

Modelling conventions:
* Python floats are modelled as real numbers (`ℝ`); the `math.isfinite`
  guards in the sanitizer are vacuous in this model since every real is
  finite, so only the range clamps are represented.
* `random.random()` draws are modelled by an explicit stream
  `u : ℕ → ℝ` of uniform values together with the index of the next
  draw; each call to the randomness source consumes one stream element.
  `random.choice` on a three-element list is modelled as one draw
  selecting by thirds.
* Python `%` on floats with positive divisor is `pymod a b = a - b*⌊a/b⌋`.
* The `description` strings of results interpolate floating-point
  formatting and are purely presentational; they are not modelled.
  The shot-direction classifier feeds only those strings and is likewise
  not modelled.
* The accumulator pair `(best_any, best_any_height_dist)` initialised
  with `float('inf')` in `_find_catchable_intercept` is modelled with an
  `Option` for `best_any` (`none` plays the role of the infinite initial
  distance), and the "cannot catch" return value `(inf, inf, 0, False)`
  is modelled as `none`.
-/

namespace CricketEngine

noncomputable section

/-! ### Physical constants (from game_engine.py) -/

def GRAVITY : ℝ := 9.81
def BAT_HEIGHT : ℝ := 1.0

def CATCH_HEIGHT_MIN : ℝ := 0.2
def CATCH_HEIGHT_MAX : ℝ := 4.0
def CATCH_OPTIMAL_MIN : ℝ := 0.8
def CATCH_OPTIMAL_MAX : ℝ := 1.6

def FIELDER_REACTION_TIME : ℝ := 0.20
def FIELDER_RUN_SPEED : ℝ := 7.0
def FIELDER_DIVE_RANGE : ℝ := 2.5
def FIELDER_STATIC_RANGE : ℝ := 1.5
def GROUND_FIELDING_RANGE : ℝ := 3.0

def PITCH_LENGTH : ℝ := 20.12
def TIME_FOR_FIRST_RUN : ℝ := 3.5
def TIME_FOR_EXTRA_RUN : ℝ := 2.5
def THROW_SPEED : ℝ := 30.0
def COLLECTION_TIME_DIRECT : ℝ := 0.5
def COLLECTION_TIME_MOVING : ℝ := 1.0
def COLLECTION_TIME_DIVING : ℝ := 1.5
def PICKUP_TIME_STOPPED : ℝ := 0.4
def GROUND_FRICTION : ℝ := 0.03
def MISFIELD_TIME_PENALTY : ℝ := 2.5
def FUMBLE_TIME_PENALTY : ℝ := 1.0

def WEIGHT_REACTION : ℝ := 0.25
def WEIGHT_MOVEMENT : ℝ := 0.35
def WEIGHT_HEIGHT : ℝ := 0.20
def WEIGHT_SPEED : ℝ := 0.20

def INNER_RING_RADIUS : ℝ := 15.0
def MID_FIELD_RADIUS : ℝ := 30.0

def AERIAL_HEIGHT_THRESHOLD : ℝ := 1.5
def AERIAL_ANGLE_THRESHOLD : ℝ := 10.0
def SIX_HEIGHT_AT_BOUNDARY : ℝ := 0.5
def MIN_SHOT_LENGTH : ℝ := 0.1
def TRAJECTORY_TIME_STEP : ℝ := 0.05
def FIELDER_PATH_START_T : ℝ := 0.05
def CATCH_EXTENDED_RANGE : ℝ := 10.0
def GROUND_EXTENDED_RANGE : ℝ := 5.0

def MAX_EXIT_SPEED : ℝ := 200.0
def MIN_EXIT_SPEED : ℝ := 0.0
def MAX_VERTICAL_ANGLE : ℝ := 90.0
def MIN_VERTICAL_ANGLE : ℝ := 0.0
def MAX_DISTANCE : ℝ := 150.0
def MAX_HEIGHT : ℝ := 50.0

/-! ### Types -/

/-- `Fielder` namedtuple: immutable fielder position. -/
structure Fielder where
  x : ℝ
  y : ℝ
  name : String

/-- `Trajectory` namedtuple: precomputed trajectory data. -/
structure Trajectory where
  projected_distance : ℝ
  max_height : ℝ
  landing_x : ℝ
  landing_y : ℝ
  time_of_flight : ℝ
  horizontal_speed : ℝ
  vertical_speed : ℝ
  direction_x : ℝ
  direction_y : ℝ
  sin_h : ℝ
  cos_h : ℝ

/-- `CatchAnalysis` TypedDict: detailed catch difficulty breakdown. -/
structure CatchAnalysis where
  can_catch : Bool
  difficulty : ℝ
  catch_type : Option String
  reaction_time : ℝ
  movement_required : ℝ
  movement_possible : ℝ
  ball_speed_at_fielder : ℝ
  height_at_intercept : ℝ
  time_to_intercept : ℝ

/-- `SimulationResult` TypedDict (the presentational `description` string
is not modelled). -/
structure SimulationResult where
  outcome : String
  runs : ℕ
  is_boundary : Bool
  is_aerial : Bool
  fielder_involved : Option String
  fielder_position : Option (ℝ × ℝ)
  end_position : ℝ × ℝ
  catch_analysis : Option CatchAnalysis

/-- The difficulty parameter after validation: `simulate_delivery`
replaces any string outside `DIFFICULTY_SETTINGS` with `'medium'`, so
post-validation it is one of the three known levels. -/
inductive Difficulty where
  | easy
  | medium
  | hard

/-- `DIFFICULTY_SETTINGS[...]['ground_fielding']` as the probability
triple (stopped, misfield_no_extra, misfield_extra). -/
def groundFieldingProbs : Difficulty → ℝ × ℝ × ℝ
  | Difficulty.easy => (0.70, 0.20, 0.10)
  | Difficulty.medium => (0.85, 0.10, 0.05)
  | Difficulty.hard => (0.95, 0.04, 0.01)

/-- `CATCH_DIFFICULTY_MODIFIER`. -/
def catchDifficultyModifier : Difficulty → ℝ
  | Difficulty.easy => 0.85
  | Difficulty.medium => 1.0
  | Difficulty.hard => 1.15

/-! ### Input validation and geometry helpers -/

/-- `_clamp`: `max(min_val, min(max_val, value))`. -/
def clamp (value min_val max_val : ℝ) : ℝ := max min_val (min max_val value)

/-- Python float `%` with positive divisor: `a - b * floor(a / b)`. -/
def pymod (a b : ℝ) : ℝ := a - b * ⌊a / b⌋

/-- `_normalize_angle`: `((angle + 180.0) % 360.0) - 180.0`. -/
def normalizeAngle (angle : ℝ) : ℝ := pymod (angle + 180.0) 360.0 - 180.0

/-- `_distance`: Euclidean distance between two points. -/
def distance (x1 y1 x2 y2 : ℝ) : ℝ :=
  Real.sqrt ((x2 - x1) * (x2 - x1) + (y2 - y1) * (y2 - y1))

/-- `_distance_point_to_line_segment`: shortest distance from a point to
a segment, returning `(distance, closest_x, closest_y, t)`. -/
def distancePointToLineSegment (px py x1 y1 x2 y2 : ℝ) : ℝ × ℝ × ℝ × ℝ :=
  let dx := x2 - x1
  let dy := y2 - y1
  let length_sq := dx * dx + dy * dy
  if length_sq < 1e-10 then (distance px py x1 y1, x1, y1, 0.0)
  else
    let t := ((px - x1) * dx + (py - y1) * dy) / length_sq
    let t_clamped := clamp t 0.0 1.0
    let closest_x := x1 + t_clamped * dx
    let closest_y := y1 + t_clamped * dy
    (distance px py closest_x closest_y, closest_x, closest_y, t_clamped)

/-- Sanitized numeric inputs of `simulate_delivery`
(`_validate_and_sanitize_inputs`; the warning list is not modelled and
the finiteness guards are vacuous over `ℝ`). -/
structure Sanitized where
  exit_speed : ℝ
  horizontal_angle : ℝ
  vertical_angle : ℝ
  landing_x : ℝ
  landing_y : ℝ
  projected_distance : ℝ
  max_height : ℝ
  boundary_distance : ℝ

/-- `_validate_and_sanitize_inputs`. -/
def sanitizeInputs (exit_speed horizontal_angle vertical_angle landing_x
    landing_y projected_distance max_height boundary_distance : ℝ) : Sanitized :=
  { exit_speed :=
      if exit_speed < MIN_EXIT_SPEED ∨ MAX_EXIT_SPEED < exit_speed then
        clamp exit_speed MIN_EXIT_SPEED MAX_EXIT_SPEED
      else exit_speed
    horizontal_angle := normalizeAngle horizontal_angle
    vertical_angle :=
      if vertical_angle < MIN_VERTICAL_ANGLE ∨ MAX_VERTICAL_ANGLE < vertical_angle then
        clamp vertical_angle MIN_VERTICAL_ANGLE MAX_VERTICAL_ANGLE
      else vertical_angle
    landing_x := landing_x
    landing_y := landing_y
    projected_distance :=
      if projected_distance < 0 ∨ MAX_DISTANCE < projected_distance then
        clamp projected_distance 0 MAX_DISTANCE
      else projected_distance
    max_height :=
      if max_height < 0 ∨ MAX_HEIGHT < max_height then
        clamp max_height 0 MAX_HEIGHT
      else max_height
    boundary_distance := if boundary_distance ≤ 0 then 70.0 else boundary_distance }

/-- The aerial flag computed in `simulate_delivery`:
`max_height > AERIAL_HEIGHT_THRESHOLD or vertical_angle > AERIAL_ANGLE_THRESHOLD`. -/
def isAerialFlag (max_height vertical_angle : ℝ) : Bool :=
  if AERIAL_HEIGHT_THRESHOLD < max_height ∨ AERIAL_ANGLE_THRESHOLD < vertical_angle then
    true
  else false

/-! ### Trajectory calculations -/

/-- `_calculate_trajectory` (with `math.radians x = x * π / 180`). -/
def calcTrajectory (speed_kmh horizontal_angle vertical_angle : ℝ) : Trajectory :=
  if speed_kmh ≤ 0 then
    { projected_distance := 0.0, max_height := BAT_HEIGHT, landing_x := 0.0,
      landing_y := 0.0, time_of_flight := 0.0, horizontal_speed := 0.0,
      vertical_speed := 0.0, direction_x := 0.0, direction_y := -1.0,
      sin_h := 0.0, cos_h := 1.0 }
  else
    let speed_ms := speed_kmh / 3.6
    let h_rad := horizontal_angle * Real.pi / 180
    let v_rad := vertical_angle * Real.pi / 180
    let sin_h := Real.sin h_rad
    let cos_h := Real.cos h_rad
    let cos_v := Real.cos v_rad
    let sin_v := Real.sin v_rad
    let v_horizontal := speed_ms * cos_v
    let v_vertical := speed_ms * sin_v
    if v_horizontal < 0.1 then
      if 0 < v_vertical then
        let t_up := v_vertical / GRAVITY
        { projected_distance := 0.1,
          max_height := BAT_HEIGHT + v_vertical * v_vertical / (2 * GRAVITY),
          landing_x := 0.0, landing_y := 0.0, time_of_flight := 2 * t_up,
          horizontal_speed := 0.1, vertical_speed := v_vertical,
          direction_x := 0.0, direction_y := -1.0, sin_h := sin_h, cos_h := cos_h }
      else
        { projected_distance := 0.1, max_height := BAT_HEIGHT,
          landing_x := 0.0, landing_y := 0.0,
          time_of_flight := Real.sqrt (2 * BAT_HEIGHT / GRAVITY),
          horizontal_speed := 0.1, vertical_speed := v_vertical,
          direction_x := 0.0, direction_y := -1.0, sin_h := sin_h, cos_h := cos_h }
    else
      let tm :=
        if 0 < v_vertical then
          let t_up := v_vertical / GRAVITY
          let apex_height := BAT_HEIGHT + v_vertical * v_vertical / (2 * GRAVITY)
          let t_down := Real.sqrt (2 * apex_height / GRAVITY)
          (t_up + t_down, apex_height)
        else (Real.sqrt (2 * BAT_HEIGHT / GRAVITY), BAT_HEIGHT)
      let t_flight := tm.1
      let dist := v_horizontal * t_flight
      let landing_x := -dist * sin_h
      let landing_y := dist * cos_h
      let dir_mag := Real.sqrt (landing_x * landing_x + landing_y * landing_y)
      let dir := if 0 < dir_mag then (landing_x / dir_mag, landing_y / dir_mag)
        else ((0.0 : ℝ), (-1.0 : ℝ))
      { projected_distance := dist, max_height := tm.2, landing_x := landing_x,
        landing_y := landing_y, time_of_flight := t_flight,
        horizontal_speed := v_horizontal, vertical_speed := v_vertical,
        direction_x := dir.1, direction_y := dir.2, sin_h := sin_h, cos_h := cos_h }

/-- `_get_ball_position_at_time` (always called with the landing
coordinates supplied). -/
def getBallPositionAtTime (traj : Trajectory) (time landing_x landing_y : ℝ) :
    ℝ × ℝ × ℝ :=
  let horizontal_dist := traj.horizontal_speed * time
  let actual_dist := distance landing_x landing_y 0 0
  let dir : ℝ × ℝ :=
    if MIN_SHOT_LENGTH < actual_dist then (landing_x / actual_dist, landing_y / actual_dist)
    else (traj.direction_x, traj.direction_y)
  let x := horizontal_dist * dir.1
  let y := horizontal_dist * dir.2
  let z := BAT_HEIGHT + traj.vertical_speed * time - 0.5 * GRAVITY * time * time
  (x, y, max 0.0 z)

/-- `_get_ball_height_at_distance`: piecewise height model. -/
def getBallHeightAtDistance (distance_from_batter projected_distance max_height
    vertical_angle : ℝ) : ℝ :=
  if projected_distance ≤ 0 then 0.0
  else if projected_distance ≤ distance_from_batter then 0.0
  else if vertical_angle < 5 then
    max 0.0 (BAT_HEIGHT * (1 - distance_from_batter / projected_distance))
  else
    let apex_fraction := 0.3 + (vertical_angle / 90.0) * 0.2
    let apex_distance := projected_distance * apex_fraction
    if distance_from_batter ≤ apex_distance then
      let t := distance_from_batter / apex_distance
      max 0.0 (BAT_HEIGHT + (max_height - BAT_HEIGHT) * (2 * t - t * t))
    else
      let remaining := projected_distance - apex_distance
      if remaining ≤ 0 then 0.0
      else
        let t := (distance_from_batter - apex_distance) / remaining
        max 0.0 (max_height * (1 - t * t))

/-! ### Fielder path analysis -/

/-- `_is_fielder_in_ball_path`. -/
def isFielderInBallPath (fielder : Fielder) (landing_x landing_y : ℝ) : Bool :=
  let shot_length := distance landing_x landing_y 0 0
  if shot_length < MIN_SHOT_LENGTH then false
  else
    let shot_dir_x := landing_x / shot_length
    let shot_dir_y := landing_y / shot_length
    let dp := fielder.x * shot_dir_x + fielder.y * shot_dir_y
    let fielder_distance := distance fielder.x fielder.y 0 0
    if fielder_distance < 10 then (if -5 < dp then true else false)
    else (if 0 < dp then true else false)

/-- `_get_boundary_intersection`. -/
def getBoundaryIntersection (landing_x landing_y boundary_distance : ℝ) : ℝ × ℝ :=
  let dist := distance landing_x landing_y 0 0
  if dist < MIN_SHOT_LENGTH then (0.0, -boundary_distance)
  else
    let scale := boundary_distance / dist
    (landing_x * scale, landing_y * scale)

/-! ### Catch analysis -/

/-- The sample times of the temporal search in `_find_catchable_intercept`:
`t = 0.1, 0.15, 0.2, ...` while `t < flight_time` (idealizing the float
accumulation `t += 0.05`). -/
def catchSearchTimes (flight_time : ℝ) : List ℝ :=
  (List.range (Int.toNat ⌈(flight_time - 0.1) / TRAJECTORY_TIME_STEP⌉)).map
    (fun i => 0.1 + TRAJECTORY_TIME_STEP * i)

/-- Loop state of `_find_catchable_intercept`:
(best_optimal, best_optimal_margin, best_any, best_any_height_dist);
`best_any = none` stands for the `float('inf')` initial height distance. -/
def interceptSearchStep (traj : Trajectory) (dir_x dir_y height_scale fx fy : ℝ)
    (st : Option (ℝ × ℝ × ℝ) × ℝ × Option (ℝ × ℝ × ℝ) × ℝ) (t : ℝ) :
    Option (ℝ × ℝ × ℝ) × ℝ × Option (ℝ × ℝ × ℝ) × ℝ :=
  let h_dist := traj.horizontal_speed * t
  let x := h_dist * dir_x
  let y := h_dist * dir_y
  let raw_z := BAT_HEIGHT + traj.vertical_speed * t - 0.5 * GRAVITY * t * t
  let z := if height_scale = 1.0 then raw_z
    else BAT_HEIGHT + (raw_z - BAT_HEIGHT) * height_scale
  if CATCH_HEIGHT_MIN ≤ z ∧ z ≤ CATCH_HEIGHT_MAX then
    let dx := x - fx
    let dy := y - fy
    let lateral_dist := Real.sqrt (dx * dx + dy * dy)
    let movement_time := max 0.0 (t - FIELDER_REACTION_TIME)
    let movement_possible := movement_time * FIELDER_RUN_SPEED + FIELDER_DIVE_RANGE
    if lateral_dist ≤ movement_possible then
      let margin := movement_possible - lateral_dist
      let is_optimal := CATCH_OPTIMAL_MIN ≤ z ∧ z ≤ CATCH_OPTIMAL_MAX
      let stOpt :=
        if is_optimal ∧ st.2.1 < margin then (some (t, lateral_dist, z), margin)
        else (st.1, st.2.1)
      let height_dist :=
        if z < CATCH_OPTIMAL_MIN then CATCH_OPTIMAL_MIN - z
        else if CATCH_OPTIMAL_MAX < z then z - CATCH_OPTIMAL_MAX
        else 0.0
      let stAny :=
        if st.2.2.1 = none ∨ height_dist < st.2.2.2 then
          (some (t, lateral_dist, z), height_dist)
        else (st.2.2.1, st.2.2.2)
      (stOpt.1, stOpt.2, stAny.1, stAny.2)
    else st
  else st

/-- `_find_catchable_intercept`: best point along the trajectory where the
fielder could catch; `none` models the `(inf, inf, 0.0, False)` "cannot
catch" return. -/
def findCatchableIntercept (fielder : Fielder) (traj : Trajectory)
    (landing_x landing_y projected_distance : ℝ) (max_height : Option ℝ) :
    Option (ℝ × ℝ × ℝ × Bool) :=
  if traj.time_of_flight ≤ 0 then none
  else
    let actual_dist := distance landing_x landing_y 0 0
    let dir : ℝ × ℝ :=
      if MIN_SHOT_LENGTH < actual_dist then
        (landing_x / actual_dist, landing_y / actual_dist)
      else (traj.direction_x, traj.direction_y)
    let actual_flight_time :=
      if 0 < traj.horizontal_speed then projected_distance / traj.horizontal_speed
      else traj.time_of_flight
    let height_scale :=
      match max_height with
      | some m =>
        if BAT_HEIGHT < traj.max_height then
          (m - BAT_HEIGHT) / (traj.max_height - BAT_HEIGHT)
        else 1.0
      | none => 1.0
    let final := (catchSearchTimes actual_flight_time).foldl
      (interceptSearchStep traj dir.1 dir.2 height_scale fielder.x fielder.y)
      (none, -1.0, none, 0.0)
    match final.1 with
    | some b => some (b.1, b.2.1, b.2.2, true)
    | none =>
      match final.2.2.1 with
      | some b => some (b.1, b.2.1, b.2.2, false)
      | none => none

/-- `_analyze_catch_difficulty`. -/
def analyzeCatchDifficulty (fielder : Fielder) (traj : Trajectory)
    (intercept_distance lateral_distance landing_x landing_y
      projected_distance : ℝ) (max_height : Option ℝ) : CatchAnalysis :=
  match findCatchableIntercept fielder traj landing_x landing_y
      projected_distance max_height with
  | none =>
    { can_catch := false, difficulty := 1.0, catch_type := none,
      reaction_time := 0.0, movement_required := lateral_distance,
      movement_possible := 0.0,
      ball_speed_at_fielder := traj.horizontal_speed * 3.6,
      height_at_intercept := 0.0, time_to_intercept := 0.0 }
  | some found =>
    let time_to_intercept := found.1
    let lateral_dist_actual := found.2.1
    let height := found.2.2.1
    let had_optimal := found.2.2.2
    let movement_time := max 0.0 (time_to_intercept - FIELDER_REACTION_TIME)
    let movement_possible := movement_time * FIELDER_RUN_SPEED + FIELDER_DIVE_RANGE
    let reaction_score := clamp (1.0 - (time_to_intercept - 0.5) / 1.5) 0.0 1.0
    let movement_score :=
      if lateral_dist_actual ≤ FIELDER_STATIC_RANGE then (0.0 : ℝ)
      else if lateral_dist_actual ≤ FIELDER_STATIC_RANGE + FIELDER_DIVE_RANGE then
        0.3 + 0.2 * ((lateral_dist_actual - FIELDER_STATIC_RANGE) / FIELDER_DIVE_RANGE)
      else
        let run_dist := lateral_dist_actual - FIELDER_STATIC_RANGE
        let max_run := max 0.01 (movement_possible - FIELDER_STATIC_RANGE)
        0.5 + 0.5 * (run_dist / max_run)
    let height_score :=
      if had_optimal then (0.0 : ℝ)
      else if CATCH_OPTIMAL_MIN ≤ height ∧ height ≤ CATCH_OPTIMAL_MAX then 0.0
      else if height < CATCH_OPTIMAL_MIN then min 1.0 ((CATCH_OPTIMAL_MIN - height) / 0.7)
      else min 1.0 ((height - CATCH_OPTIMAL_MAX) / 1.7)
    let ball_speed_kmh := traj.horizontal_speed * 3.6
    let speed_score := clamp ((ball_speed_kmh - 60) / 60) 0.0 1.0
    let difficulty := WEIGHT_REACTION * reaction_score +
      WEIGHT_MOVEMENT * movement_score + WEIGHT_HEIGHT * height_score +
      WEIGHT_SPEED * speed_score
    let catch_type :=
      if difficulty < 0.25 then "regulation"
      else if difficulty < 0.6 then "hard"
      else "spectacular"
    { can_catch := true, difficulty := difficulty, catch_type := some catch_type,
      reaction_time := time_to_intercept, movement_required := lateral_dist_actual,
      movement_possible := movement_possible,
      ball_speed_at_fielder := ball_speed_kmh, height_at_intercept := height,
      time_to_intercept := time_to_intercept }

/-! ### Outcome rolling -/

/-- `_roll_catch_outcome`; `u` is the uniform draw consumed by
`random.random()`. -/
def rollCatchOutcome (analysis : CatchAnalysis) (difficulty : Difficulty)
    (u : ℝ) : String :=
  let base_prob := 0.98 - 0.52 * analysis.difficulty
  let modifier := catchDifficultyModifier difficulty
  let catch_prob := min 0.99 (base_prob * modifier)
  if u < catch_prob then "caught" else "dropped"

/-- `_roll_ground_fielding_outcome`; `probs` is the
(stopped, misfield_no_extra, misfield_extra) triple. -/
def rollGroundFieldingOutcome (probs : ℝ × ℝ × ℝ) (roll : ℝ) : String :=
  if roll < probs.1 then "stopped"
  else if roll < probs.1 + probs.2.1 then "misfield_no_extra"
  else "misfield_extra"

/-! ### Ground-fielding time calculations -/

/-- `_get_ground_ball_speed`. -/
def groundBallSpeed (exit_speed_kmh dist : ℝ) : ℝ :=
  if exit_speed_kmh ≤ 0 ∨ dist ≤ 0 then 3.0
  else
    let exit_speed_ms := exit_speed_kmh / 3.6
    let friction_factor := Real.exp (-GROUND_FRICTION * dist * 0.5)
    max 3.0 (exit_speed_ms * friction_factor)

/-- `_get_ball_travel_time`. -/
def ballTravelTime (exit_speed_kmh dist : ℝ) : ℝ :=
  if dist ≤ 0 then 0.0
  else dist / groundBallSpeed exit_speed_kmh dist

/-- `_get_throw_distance`: distance to the nearest set of stumps. -/
def throwDistance (x y : ℝ) : ℝ :=
  let dist_batting := distance x y 0 0
  let dist_bowling := distance x (y + PITCH_LENGTH) 0 0
  max 0.1 (min dist_batting dist_bowling)

/-- `_calculate_fielding_time`. -/
def calculateFieldingTime (exit_speed intercept_distance lateral_distance
    fielder_x fielder_y : ℝ) : ℝ :=
  let ball_time := ballTravelTime exit_speed intercept_distance
  let available_movement_time := max 0.0 (ball_time - FIELDER_REACTION_TIME)
  let distance_covered := available_movement_time * FIELDER_RUN_SPEED
  let effective_lateral := max 0.0 (lateral_distance - distance_covered)
  let collection :=
    if effective_lateral < 0.5 then COLLECTION_TIME_DIRECT
    else if effective_lateral < 2.0 then COLLECTION_TIME_MOVING
    else COLLECTION_TIME_DIVING
  let throw_dist := throwDistance fielder_x fielder_y
  let throw_time := throw_dist / THROW_SPEED
  ball_time + collection + throw_time

/-- `_calculate_runs_from_fielding_time`.  The imperative
`runs/remaining` updates are flattened: the second `if` tests the
(possibly decremented) remaining time at the same nesting level. -/
def calculateRunsFromFieldingTime (fielding_time : ℝ) (is_misfield : Bool) : ℕ :=
  let effective_time :=
    if is_misfield then fielding_time + MISFIELD_TIME_PENALTY else fielding_time
  if effective_time < TIME_FOR_FIRST_RUN then 0
  else
    let remaining := effective_time - TIME_FOR_FIRST_RUN
    if TIME_FOR_EXTRA_RUN ≤ remaining then
      (if TIME_FOR_EXTRA_RUN ≤ remaining - TIME_FOR_EXTRA_RUN then 3 else 2)
    else (if TIME_FOR_EXTRA_RUN ≤ remaining then 3 else 1)

/-! ### Result builder -/

/-- `_build_result` (without the `description` string). -/
def buildResult (outcome : String) (runs : ℕ) (is_boundary is_aerial : Bool)
    (fielder : Option Fielder) (end_x end_y : ℝ)
    (catch_analysis : Option CatchAnalysis)
    (fielder_pos : Option (ℝ × ℝ)) : SimulationResult :=
  { outcome := outcome
    runs := runs
    is_boundary := is_boundary
    is_aerial := is_aerial
    fielder_involved := fielder.map (fun f => f.name)
    fielder_position :=
      match fielder_pos, fielder with
      | some p, _ => some p
      | none, some f => some (f.x, f.y)
      | none, none => none
    end_position := (end_x, end_y)
    catch_analysis := catch_analysis }

/-! ### Main simulation: decomposed checks -/

/-- `_check_six`. -/
def checkSix (traj : Trajectory) (projected_distance max_height vertical_angle
    boundary_distance : ℝ) (is_aerial : Bool) (landing_x landing_y : ℝ) :
    Option SimulationResult :=
  if projected_distance < boundary_distance then none
  else
    let height_at_boundary := getBallHeightAtDistance boundary_distance
      projected_distance max_height vertical_angle
    if is_aerial = true ∧ SIX_HEIGHT_AT_BOUNDARY < height_at_boundary then
      let bp := getBoundaryIntersection landing_x landing_y boundary_distance
      some (buildResult "6" 6 true true none bp.1 bp.2 none none)
    else none

/-- `random.choice` on a three-element list, modelled as one uniform
draw selecting by thirds. -/
def choice3 (a b c : ℕ) (u : ℝ) : ℕ :=
  if u < 1 / 3 then a else if u < 2 / 3 then b else c

/-- `_calculate_runs_for_dropped` (its `exit_speed` parameter is unused
in the source as well). -/
def calculateRunsForDropped (projected_distance exit_speed : ℝ) (u : ℝ) : ℕ :=
  if MID_FIELD_RADIUS ≤ projected_distance then choice3 2 2 3 u
  else if INNER_RING_RADIUS ≤ projected_distance then choice3 1 1 2 u
  else 1

/-- The early-return gate of `_evaluate_catches`
(`if not is_aerial or max_height < CATCH_HEIGHT_MIN: return None`):
`true` means the per-fielder catch evaluation is entered. -/
def catchGate (is_aerial : Bool) (max_height : ℝ) : Bool :=
  if is_aerial = false ∨ max_height < CATCH_HEIGHT_MIN then false else true

/-- The `for fielder, analysis, _ in chances:` loop of
`_evaluate_catches`.  `k` is the index of the next uniform draw; each
iteration consumes one draw for the catch roll and (for a non-boundary
drop) one more for `random.choice`. The roll only ever returns
`'caught'` or `'dropped'`, so the recursive continuation is never
reached, mirroring the source's `if/elif`. -/
def processCatchChances (traj : Trajectory) (projected_distance
    boundary_distance landing_x landing_y exit_speed : ℝ)
    (difficulty : Difficulty) (u : ℕ → ℝ) :
    ℕ → List (Fielder × CatchAnalysis × ℝ) → Option SimulationResult
  | _, [] => none
  | k, (fielder, analysis, _) :: rest =>
    let outcome := rollCatchOutcome analysis difficulty (u k)
    if outcome = "caught" then
      let pos := getBallPositionAtTime traj analysis.time_to_intercept
        landing_x landing_y
      some (buildResult "caught" 0 false true (some fielder) pos.1 pos.2.1
        (some analysis) none)
    else if outcome = "dropped" then
      if boundary_distance ≤ projected_distance then
        let bp := getBoundaryIntersection landing_x landing_y boundary_distance
        some (buildResult "4" 4 true true (some fielder) bp.1 bp.2
          (some analysis) none)
      else
        let runs := calculateRunsForDropped projected_distance exit_speed (u (k + 1))
        some (buildResult "dropped" runs false true (some fielder)
          landing_x landing_y (some analysis) none)
    else
      processCatchChances traj projected_distance boundary_distance landing_x
        landing_y exit_speed difficulty u (k + 1) rest

/-- Stable insertion of `a` into `l` by a real-valued key (used to model
Python's stable `list.sort(key=...)`; an element with an equal key stays
after existing ones). -/
def insertByKey {α : Type} (key : α → ℝ) (a : α) : List α → List α
  | [] => [a]
  | b :: bs => if key b ≤ key a then b :: insertByKey key a bs else a :: b :: bs

/-- Stable sort by a real-valued key, modelling `list.sort(key=...)`. -/
def sortByKey {α : Type} (key : α → ℝ) : List α → List α
  | [] => []
  | a :: as_ => insertByKey key a (sortByKey key as_)

/-- The candidate filter of `_evaluate_catches` for one fielder. -/
def catchChanceFor (traj : Trajectory) (projected_distance max_height
    landing_x landing_y : ℝ) (fielder : Fielder) :
    Option (Fielder × CatchAnalysis × ℝ) :=
  if isFielderInBallPath fielder landing_x landing_y = false then none
  else if projected_distance + CATCH_EXTENDED_RANGE <
      distance fielder.x fielder.y 0 0 then none
  else
    let seg := distancePointToLineSegment fielder.x fielder.y 0 0
      landing_x landing_y
    let lat_dist := seg.1
    let closest_x := seg.2.1
    let closest_y := seg.2.2.1
    let t := seg.2.2.2
    if t < FIELDER_PATH_START_T then none
    else
      let intercept_dist := distance closest_x closest_y 0 0
      let analysis := analyzeCatchDifficulty fielder traj intercept_dist
        lat_dist landing_x landing_y projected_distance (some max_height)
      if analysis.can_catch = true then some (fielder, analysis, intercept_dist)
      else none

/-- The body of `_evaluate_catches` after its early-return gate: collect
candidate chances, sort by intercept distance, and run the roll loop. -/
def evaluateCatchesBody (fielders : List Fielder) (traj : Trajectory)
    (projected_distance max_height landing_x landing_y boundary_distance : ℝ)
    (difficulty : Difficulty) (exit_speed : ℝ) (u : ℕ → ℝ) (k : ℕ) :
    Option SimulationResult :=
  let chances := fielders.filterMap
    (catchChanceFor traj projected_distance max_height landing_x landing_y)
  let sorted := sortByKey (fun c => c.2.2) chances
  processCatchChances traj projected_distance boundary_distance landing_x
    landing_y exit_speed difficulty u k sorted

/-- `_evaluate_catches`. -/
def evaluateCatches (fielders : List Fielder) (traj : Trajectory)
    (projected_distance max_height landing_x landing_y boundary_distance : ℝ)
    (difficulty : Difficulty) (exit_speed : ℝ) (is_aerial : Bool)
    (u : ℕ → ℝ) (k : ℕ) : Option SimulationResult :=
  if catchGate is_aerial max_height = false then none
  else evaluateCatchesBody fielders traj projected_distance max_height
    landing_x landing_y boundary_distance difficulty exit_speed u k

/-- `_check_boundary_four`. -/
def checkBoundaryFour (projected_distance boundary_distance landing_x
    landing_y : ℝ) (is_aerial : Bool) : Option SimulationResult :=
  if projected_distance < boundary_distance then none
  else
    let bp := getBoundaryIntersection landing_x landing_y boundary_distance
    some (buildResult "4" 4 true is_aerial none bp.1 bp.2 none none)

/-- The candidate filter of `_evaluate_ground_fielding` for one fielder. -/
def groundChanceFor (projected_distance landing_x landing_y exit_speed : ℝ)
    (fielder : Fielder) : Option (Fielder × ℝ × ℝ) :=
  if isFielderInBallPath fielder landing_x landing_y = false then none
  else
    let seg := distancePointToLineSegment fielder.x fielder.y 0 0
      landing_x landing_y
    let lat_dist := seg.1
    let closest_x := seg.2.1
    let closest_y := seg.2.2.1
    let t := seg.2.2.2
    if t < FIELDER_PATH_START_T then none
    else
      let intercept_dist := distance closest_x closest_y 0 0
      let fielder_dist := distance fielder.x fielder.y 0 0
      let ball_travel_time := ballTravelTime exit_speed intercept_dist
      let available_movement :=
        max 0.0 (ball_travel_time - FIELDER_REACTION_TIME) * FIELDER_RUN_SPEED
      let max_reach := GROUND_FIELDING_RANGE + available_movement
      if lat_dist ≤ max_reach ∧ fielder_dist ≤ projected_distance + max_reach then
        some (fielder, lat_dist, intercept_dist)
      else none

/-- The `for fielder, lat_dist, intercept_dist in chances:` loop of
`_evaluate_ground_fielding` applied to the sorted candidate list.  In
the source every branch of the roll returns, so only the head of the
list is ever examined and exactly one draw (index `k`) is consumed. -/
def processGroundChances (landing_x landing_y exit_speed : ℝ)
    (is_aerial : Bool) (probs : ℝ × ℝ × ℝ) (u : ℕ → ℝ) (k : ℕ) :
    List (Fielder × ℝ × ℝ) → Option SimulationResult
  | [] => none
  | (fielder, lat_dist, intercept_dist) :: _ =>
    let outcome := rollGroundFieldingOutcome probs (u k)
    let fielding_time := calculateFieldingTime exit_speed intercept_dist
      lat_dist fielder.x fielder.y
    if outcome = "stopped" then
      let runs := calculateRunsFromFieldingTime fielding_time false
      if runs = 0 then
        some (buildResult "dot" 0 false is_aerial (some fielder)
          fielder.x fielder.y none none)
      else
        some (buildResult (toString runs) runs false is_aerial (some fielder)
          fielder.x fielder.y none none)
    else if outcome = "misfield_no_extra" then
      let runs := max 1 (calculateRunsFromFieldingTime
        (fielding_time + FUMBLE_TIME_PENALTY) false)
      some (buildResult "misfield" runs false is_aerial (some fielder)
        fielder.x fielder.y none none)
    else
      let runs := calculateRunsFromFieldingTime fielding_time true
      some (buildResult "misfield" runs false is_aerial (some fielder)
        landing_x landing_y none none)

/-- `_evaluate_ground_fielding`. -/
def evaluateGroundFielding (fielders : List Fielder) (projected_distance
    landing_x landing_y exit_speed : ℝ) (is_aerial : Bool)
    (probs : ℝ × ℝ × ℝ) (u : ℕ → ℝ) (k : ℕ) : Option SimulationResult :=
  let chances := fielders.filterMap
    (groundChanceFor projected_distance landing_x landing_y exit_speed)
  let sorted := sortByKey (fun c => c.2.1) chances
  processGroundChances landing_x landing_y exit_speed is_aerial probs u k sorted

/-- `min(fielders, key=distance to landing)`: Python's `min` keeps the
first minimal element. -/
def nearestFielder (fielders : List Fielder) (landing_x landing_y : ℝ) :
    Option Fielder :=
  fielders.foldl
    (fun acc f =>
      match acc with
      | none => some f
      | some g =>
        if distance f.x f.y landing_x landing_y <
            distance g.x g.y landing_x landing_y then some f
        else some g)
    none

/-- `_fallback_nearest_fielder`. -/
def fallbackNearestFielder (fielders : List Fielder) (landing_x landing_y
    projected_distance exit_speed : ℝ) (is_aerial : Bool) : SimulationResult :=
  match nearestFielder fielders landing_x landing_y with
  | none => buildResult "4" 4 true is_aerial none landing_x landing_y none none
  | some nearest =>
    let nearest_dist := distance nearest.x nearest.y landing_x landing_y
    let ball_time := ballTravelTime exit_speed projected_distance
    let available_run := max 0.0 (ball_time - FIELDER_REACTION_TIME)
    let covered := available_run * FIELDER_RUN_SPEED
    let remaining := max 0.0 (nearest_dist - covered)
    let additional_run :=
      if 0 < FIELDER_RUN_SPEED then remaining / FIELDER_RUN_SPEED else 0
    let throw_dist := throwDistance landing_x landing_y
    let throw_time := throw_dist / THROW_SPEED
    let total_time := ball_time + additional_run + PICKUP_TIME_STOPPED + throw_time
    let runs := calculateRunsFromFieldingTime total_time false
    buildResult (if 0 < runs then toString runs else "dot") runs false is_aerial
      (some nearest) landing_x landing_y none none

/-! ### Main entry point -/

/-- The body of `simulate_delivery` after sanitization, difficulty
validation and trajectory computation: the ordered outcome checks.
Both randomness-consuming stages start at draw index 0 because at most
one of them ever consumes draws (`_evaluate_catches` draws only on the
iteration that returns). -/
def simulateCore (s : Sanitized) (fielders : List Fielder)
    (difficulty : Difficulty) (traj : Trajectory) (u : ℕ → ℝ) :
    SimulationResult :=
  let is_aerial := isAerialFlag s.max_height s.vertical_angle
  match checkSix traj s.projected_distance s.max_height s.vertical_angle
      s.boundary_distance is_aerial s.landing_x s.landing_y with
  | some result => result
  | none =>
  match evaluateCatches fielders traj s.projected_distance s.max_height
      s.landing_x s.landing_y s.boundary_distance difficulty s.exit_speed
      is_aerial u 0 with
  | some result => result
  | none =>
  match checkBoundaryFour s.projected_distance s.boundary_distance
      s.landing_x s.landing_y is_aerial with
  | some result => result
  | none =>
  match evaluateGroundFielding fielders s.projected_distance s.landing_x
      s.landing_y s.exit_speed is_aerial (groundFieldingProbs difficulty) u 0 with
  | some result => result
  | none =>
    fallbackNearestFielder fielders s.landing_x s.landing_y
      s.projected_distance s.exit_speed is_aerial

/-- `simulate_delivery`: the full pipeline.  `difficulty` is the
post-validation difficulty level and `u` the injected uniform stream. -/
def simulateDelivery (exit_speed horizontal_angle vertical_angle landing_x
    landing_y projected_distance max_height : ℝ) (fielders : List Fielder)
    (boundary_distance : ℝ) (difficulty : Difficulty) (u : ℕ → ℝ) :
    SimulationResult :=
  let s := sanitizeInputs exit_speed horizontal_angle vertical_angle landing_x
    landing_y projected_distance max_height boundary_distance
  let traj := calcTrajectory s.exit_speed s.horizontal_angle s.vertical_angle
  simulateCore s fielders difficulty traj u

/-- A concrete catch analysis used as a witness input. -/
def sampleAnalysis : CatchAnalysis :=
  { can_catch := true
    difficulty := 0.5
    catch_type := some ("hard")
    reaction_time := 1
    movement_required := 1
    movement_possible := 2
    ball_speed_at_fielder := 100
    height_at_intercept := 1
    time_to_intercept := 1 }

/-! ## Helper lemmas -/

theorem simulateDelivery_def (es h v lx ly pd mh : ℝ) (fielders : List Fielder)
    (bd : ℝ) (diff : Difficulty) (u : ℕ → ℝ) :
    simulateDelivery es h v lx ly pd mh fielders bd diff u =
      simulateCore (sanitizeInputs es h v lx ly pd mh bd) fielders diff
        (calcTrajectory (sanitizeInputs es h v lx ly pd mh bd).exit_speed
          (sanitizeInputs es h v lx ly pd mh bd).horizontal_angle
          (sanitizeInputs es h v lx ly pd mh bd).vertical_angle) u := rfl

theorem calcRuns_le_three (t : ℝ) (b : Bool) :
    calculateRunsFromFieldingTime t b ≤ 3 := by
  unfold calculateRunsFromFieldingTime
  dsimp only
  split_ifs <;> norm_num

theorem calculateRunsForDropped_bounds (pd es uu : ℝ) :
    1 ≤ calculateRunsForDropped pd es uu ∧ calculateRunsForDropped pd es uu ≤ 3 := by
  unfold calculateRunsForDropped choice3
  split_ifs <;> norm_num

theorem toString_ne_six (n : ℕ) (h : n ≤ 3) : toString n ≠ "6" := by
  interval_cases n <;> decide

theorem gbs_ge_three (e d : ℝ) : 3 ≤ groundBallSpeed e d := by
  unfold groundBallSpeed
  split_ifs with h1
  · norm_num
  · exact le_trans (by norm_num) (le_max_left _ _)

theorem gbs_mono (d s1 s2 : ℝ) (hs : s1 ≤ s2) :
    groundBallSpeed s1 d ≤ groundBallSpeed s2 d := by
  unfold groundBallSpeed
  split_ifs with h1 h2 h2
  · exact le_refl _
  · exact le_trans (by norm_num) (le_max_left _ _)
  · exfalso
    push_neg at h1
    rcases h2 with h2 | h2 <;> linarith [h1.1, h1.2]
  · refine max_le_max (le_refl _) ?_
    refine mul_le_mul_of_nonneg_right ?_ (Real.exp_pos _).le
    exact (div_le_div_right (by norm_num)).mpr hs

/-! ## Result-shape lemmas for the pipeline stages -/

theorem checkSix_some {traj : Trajectory} {pd mh va bd : ℝ} {ia : Bool}
    {lx ly : ℝ} {r : SimulationResult}
    (h : checkSix traj pd mh va bd ia lx ly = some r) :
    r.outcome = "6" ∧ r.runs = 6 ∧ r.is_boundary = true ∧ r.is_aerial = true ∧
    bd ≤ pd ∧ ia = true ∧
    SIX_HEIGHT_AT_BOUNDARY < getBallHeightAtDistance bd pd mh va := by
  unfold checkSix at h
  dsimp only at h
  split_ifs at h with h1 h2
  · rw [Option.some.injEq] at h
    subst h
    exact ⟨rfl, rfl, rfl, rfl, not_lt.mp h1, h2.1, h2.2⟩

theorem checkSix_none {traj : Trajectory} {pd mh va bd : ℝ} {ia : Bool}
    {lx ly : ℝ} (h : checkSix traj pd mh va bd ia lx ly = none) :
    ¬ (bd ≤ pd ∧ ia = true ∧
       SIX_HEIGHT_AT_BOUNDARY < getBallHeightAtDistance bd pd mh va) := by
  unfold checkSix at h
  dsimp only at h
  split_ifs at h with h1 h2
  · rintro ⟨hb, -, -⟩
    linarith
  · rintro ⟨-, hia, hht⟩
    exact h2 ⟨hia, hht⟩

theorem processCatchChances_shape (traj : Trajectory) (pd bd lx ly es : ℝ)
    (diff : Difficulty) (u : ℕ → ℝ) (l : List (Fielder × CatchAnalysis × ℝ)) :
    ∀ (k : ℕ) (r : SimulationResult),
      processCatchChances traj pd bd lx ly es diff u k l = some r →
      (r.outcome = "caught" ∧ r.runs = 0 ∧ r.is_boundary = false) ∨
      (r.outcome = "4" ∧ r.runs = 4 ∧ r.is_boundary = true ∧ r.is_aerial = true) ∨
      (r.outcome = "dropped" ∧ 1 ≤ r.runs ∧ r.runs ≤ 3 ∧ r.is_boundary = false) := by
  induction l with
  | nil =>
    intro k r h
    exact Option.noConfusion h
  | cons c rest ih =>
    intro k r h
    rcases c with ⟨f, analysis, icd⟩
    unfold processCatchChances at h
    dsimp only at h
    split_ifs at h with h1 h2 h3
    · rw [Option.some.injEq] at h
      subst h
      exact Or.inl ⟨rfl, rfl, rfl⟩
    · rw [Option.some.injEq] at h
      subst h
      exact Or.inr (Or.inl ⟨rfl, rfl, rfl, rfl⟩)
    · rw [Option.some.injEq] at h
      subst h
      exact Or.inr (Or.inr ⟨rfl, (calculateRunsForDropped_bounds pd es _).1,
        (calculateRunsForDropped_bounds pd es _).2, rfl⟩)
    · exact ih (k + 1) r h

theorem evaluateCatches_shape {fielders : List Fielder} {traj : Trajectory}
    {pd mh lx ly bd : ℝ} {diff : Difficulty} {es : ℝ} {ia : Bool}
    {u : ℕ → ℝ} {k : ℕ} {r : SimulationResult}
    (h : evaluateCatches fielders traj pd mh lx ly bd diff es ia u k = some r) :
    (r.outcome = "caught" ∧ r.runs = 0 ∧ r.is_boundary = false) ∨
    (r.outcome = "4" ∧ r.runs = 4 ∧ r.is_boundary = true ∧ r.is_aerial = true) ∨
    (r.outcome = "dropped" ∧ 1 ≤ r.runs ∧ r.runs ≤ 3 ∧ r.is_boundary = false) := by
  unfold evaluateCatches at h
  split_ifs at h with h1
  unfold evaluateCatchesBody at h
  dsimp only at h
  exact processCatchChances_shape traj pd bd lx ly es diff u _ k r h

theorem checkBoundaryFour_shape {pd bd lx ly : ℝ} {ia : Bool}
    {r : SimulationResult} (h : checkBoundaryFour pd bd lx ly ia = some r) :
    r.outcome = "4" ∧ r.runs = 4 ∧ r.is_boundary = true := by
  unfold checkBoundaryFour at h
  dsimp only at h
  split_ifs at h with h1
  · rw [Option.some.injEq] at h
    subst h
    exact ⟨rfl, rfl, rfl⟩

theorem processGroundChances_shape (lx ly es : ℝ) (ia : Bool)
    (probs : ℝ × ℝ × ℝ) (u : ℕ → ℝ) (k : ℕ) (l : List (Fielder × ℝ × ℝ))
    (r : SimulationResult)
    (h : processGroundChances lx ly es ia probs u k l = some r) :
    (r.outcome = "dot" ∧ r.runs = 0 ∧ r.is_boundary = false) ∨
    (∃ n : ℕ, r.outcome = toString n ∧ r.runs = n ∧ 1 ≤ n ∧ n ≤ 3 ∧
      r.is_boundary = false) ∨
    (r.outcome = "misfield" ∧ r.runs ≤ 3 ∧ r.is_boundary = false) := by
  match l with
  | [] => exact Option.noConfusion h
  | ⟨f, lat, icd⟩ :: rest =>
    unfold processGroundChances at h
    dsimp only at h
    split_ifs at h with h1 h2 h3
    · rw [Option.some.injEq] at h
      subst h
      exact Or.inl ⟨rfl, rfl, rfl⟩
    · rw [Option.some.injEq] at h
      subst h
      refine Or.inr (Or.inl ⟨_, rfl, rfl, ?_, calcRuns_le_three _ _, rfl⟩)
      exact Nat.pos_of_ne_zero h2
    · rw [Option.some.injEq] at h
      subst h
      refine Or.inr (Or.inr ⟨rfl, ?_, rfl⟩)
      exact max_le (by norm_num) (calcRuns_le_three _ _)
    · rw [Option.some.injEq] at h
      subst h
      exact Or.inr (Or.inr ⟨rfl, calcRuns_le_three _ _, rfl⟩)

theorem evaluateGroundFielding_shape {fielders : List Fielder}
    {pd lx ly es : ℝ} {ia : Bool} {probs : ℝ × ℝ × ℝ} {u : ℕ → ℝ} {k : ℕ}
    {r : SimulationResult}
    (h : evaluateGroundFielding fielders pd lx ly es ia probs u k = some r) :
    (r.outcome = "dot" ∧ r.runs = 0 ∧ r.is_boundary = false) ∨
    (∃ n : ℕ, r.outcome = toString n ∧ r.runs = n ∧ 1 ≤ n ∧ n ≤ 3 ∧
      r.is_boundary = false) ∨
    (r.outcome = "misfield" ∧ r.runs ≤ 3 ∧ r.is_boundary = false) := by
  unfold evaluateGroundFielding at h
  dsimp only at h
  exact processGroundChances_shape lx ly es ia probs u k _ r h

theorem fallbackNearestFielder_shape (fielders : List Fielder)
    (lx ly pd es : ℝ) (ia : Bool) :
    ((fallbackNearestFielder fielders lx ly pd es ia).outcome = "4" ∧
      (fallbackNearestFielder fielders lx ly pd es ia).runs = 4) ∨
    ((fallbackNearestFielder fielders lx ly pd es ia).outcome = "dot" ∧
      (fallbackNearestFielder fielders lx ly pd es ia).runs = 0) ∨
    (∃ n : ℕ, (fallbackNearestFielder fielders lx ly pd es ia).outcome = toString n ∧
      (fallbackNearestFielder fielders lx ly pd es ia).runs = n ∧ 1 ≤ n ∧ n ≤ 3) := by
  unfold fallbackNearestFielder
  split
  · exact Or.inl ⟨rfl, rfl⟩
  · dsimp only [buildResult]
    split_ifs with hrs h1 h2
    · exact Or.inr (Or.inr ⟨_, rfl, rfl, h1, calcRuns_le_three _ _⟩)
    · exact Or.inr (Or.inl ⟨rfl, Nat.eq_zero_of_not_pos h1⟩)
    · exact Or.inr (Or.inr ⟨_, rfl, rfl, h2, calcRuns_le_three _ _⟩)
    · exact Or.inr (Or.inl ⟨rfl, Nat.eq_zero_of_not_pos h2⟩)

/-- Assembles the four master-lemma conjuncts for a result that is not a
six. -/
theorem nonSix_assemble {r : SimulationResult} {C : Prop}
    (hnot : ¬ C) (ho : r.outcome ≠ "6") (hr6 : r.runs ≠ 6)
    (hmem : r.runs ∈ ({0, 1, 2, 3, 4, 6} : Set ℕ)) :
    ((r.outcome = "6" ↔ C) ∧ (r.runs = 6 ↔ r.outcome = "6") ∧
     (r.outcome = "6" → r.runs = 6 ∧ r.is_boundary = true ∧ r.is_aerial = true) ∧
     r.runs ∈ ({0, 1, 2, 3, 4, 6} : Set ℕ)) :=
  ⟨⟨fun hx => absurd hx ho, fun hx => absurd hx hnot⟩,
   ⟨fun hx => absurd hx hr6, fun hx => absurd hx ho⟩,
   fun hx => absurd hx ho, hmem⟩

/-- Master lemma about a full `simulateCore` run: the six
characterization, the runs/outcome agreement for six, the boundary and
aerial flags of a six, and the possible run values. -/
theorem simulateCore_spec (s : Sanitized) (fielders : List Fielder)
    (diff : Difficulty) (traj : Trajectory) (u : ℕ → ℝ) :
    ((simulateCore s fielders diff traj u).outcome = "6" ↔
      (s.boundary_distance ≤ s.projected_distance ∧
       isAerialFlag s.max_height s.vertical_angle = true ∧
       SIX_HEIGHT_AT_BOUNDARY < getBallHeightAtDistance s.boundary_distance
         s.projected_distance s.max_height s.vertical_angle)) ∧
    ((simulateCore s fielders diff traj u).runs = 6 ↔
      (simulateCore s fielders diff traj u).outcome = "6") ∧
    ((simulateCore s fielders diff traj u).outcome = "6" →
      (simulateCore s fielders diff traj u).runs = 6 ∧
      (simulateCore s fielders diff traj u).is_boundary = true ∧
      (simulateCore s fielders diff traj u).is_aerial = true) ∧
    (simulateCore s fielders diff traj u).runs ∈ ({0, 1, 2, 3, 4, 6} : Set ℕ) := by
  unfold simulateCore
  dsimp only
  split
  · rename_i r hr
    obtain ⟨ho, hrn, hb, ha, hc1, hc2, hc3⟩ := checkSix_some hr
    refine ⟨⟨fun _ => ⟨hc1, hc2, hc3⟩, fun _ => ho⟩,
      ⟨fun _ => ho, fun _ => hrn⟩, fun _ => ⟨hrn, hb, ha⟩, ?_⟩
    rw [hrn]
    simp
  · rename_i hr
    have hnot := checkSix_none hr
    split
    · rename_i r hc
      rcases evaluateCatches_shape hc with hA | hA | hA
      · refine nonSix_assemble hnot ?_ ?_ ?_
        · rw [hA.1]; decide
        · rw [hA.2.1]; decide
        · rw [hA.2.1]; simp
      · refine nonSix_assemble hnot ?_ ?_ ?_
        · rw [hA.1]; decide
        · rw [hA.2.1]; decide
        · rw [hA.2.1]; simp
      · refine nonSix_assemble hnot ?_ ?_ ?_
        · rw [hA.1]; decide
        · have h1 := hA.2.1
          have h2 := hA.2.2.1
          omega
        · have h1 := hA.2.1
          have h2 := hA.2.2.1
          simp only [Set.mem_insert_iff, Set.mem_singleton_iff]
          omega
    · rename_i hcn
      split
      · rename_i r hf
        obtain ⟨ho, hrn, hb⟩ := checkBoundaryFour_shape hf
        refine nonSix_assemble hnot ?_ ?_ ?_
        · rw [ho]; decide
        · rw [hrn]; decide
        · rw [hrn]; simp
      · rename_i hfn
        split
        · rename_i r hg
          rcases evaluateGroundFielding_shape hg with hA | hA | hA
          · refine nonSix_assemble hnot ?_ ?_ ?_
            · rw [hA.1]; decide
            · rw [hA.2.1]; decide
            · rw [hA.2.1]; simp
          · obtain ⟨n, ho, hrn, h1, h3, -⟩ := hA
            refine nonSix_assemble hnot ?_ ?_ ?_
            · rw [ho]; exact toString_ne_six n h3
            · rw [hrn]; omega
            · rw [hrn]
              simp only [Set.mem_insert_iff, Set.mem_singleton_iff]
              omega
          · refine nonSix_assemble hnot ?_ ?_ ?_
            · rw [hA.1]; decide
            · have h3 := hA.2.1
              omega
            · have h3 := hA.2.1
              simp only [Set.mem_insert_iff, Set.mem_singleton_iff]
              omega
        · rename_i hgn
          rcases fallbackNearestFielder_shape fielders s.landing_x s.landing_y
              s.projected_distance s.exit_speed
              (isAerialFlag s.max_height s.vertical_angle) with hA | hA | hA
          · refine nonSix_assemble hnot ?_ ?_ ?_
            · rw [hA.1]; decide
            · rw [hA.2]; decide
            · rw [hA.2]; simp
          · refine nonSix_assemble hnot ?_ ?_ ?_
            · rw [hA.1]; decide
            · rw [hA.2]; decide
            · rw [hA.2]; simp
          · obtain ⟨n, ho, hrn, h1, h3⟩ := hA
            refine nonSix_assemble hnot ?_ ?_ ?_
            · rw [ho]; exact toString_ne_six n h3
            · rw [hrn]; omega
            · rw [hrn]
              simp only [Set.mem_insert_iff, Set.mem_singleton_iff]
              omega

/-! ## Claims C2, C3, C9: whole-pipeline invariants -/

/-- C2 amended: `runs = 6` iff `outcome = "6"`, and `outcome = "6"`
implies `is_boundary ∧ is_aerial`; the converse of the latter fails
(an aerial boundary four, e.g. after a dropped boundary catch or a
low aerial shot reaching the rope, has `is_boundary ∧ is_aerial` with
outcome `"4"`). -/
theorem C2_runs_outcome_six (es ha va lx ly pd mh : ℝ)
    (fielders : List Fielder) (bd : ℝ) (diff : Difficulty) (u : ℕ → ℝ) :
    ((simulateDelivery es ha va lx ly pd mh fielders bd diff u).runs = 6 ↔
      (simulateDelivery es ha va lx ly pd mh fielders bd diff u).outcome = "6") ∧
    ((simulateDelivery es ha va lx ly pd mh fielders bd diff u).outcome = "6" →
      (simulateDelivery es ha va lx ly pd mh fielders bd diff u).is_boundary = true ∧
      (simulateDelivery es ha va lx ly pd mh fielders bd diff u).is_aerial = true) := by
  rw [simulateDelivery_def]
  have hs := simulateCore_spec (sanitizeInputs es ha va lx ly pd mh bd) fielders
    diff (calcTrajectory (sanitizeInputs es ha va lx ly pd mh bd).exit_speed
      (sanitizeInputs es ha va lx ly pd mh bd).horizontal_angle
      (sanitizeInputs es ha va lx ly pd mh bd).vertical_angle) u
  exact ⟨hs.2.1, fun h6 => ⟨(hs.2.2.1 h6).2.1, (hs.2.2.1 h6).2.2⟩⟩

/-- C3: `simulate_delivery` returns outcome `"6"` (with `runs = 6` and
`is_boundary`) iff, after sanitization, `projected_distance ≥
boundary_distance`, the shot is aerial, and the piecewise height model
evaluated at the boundary exceeds 0.5 m. -/
theorem C3_six_characterization (es ha va lx ly pd mh : ℝ)
    (fielders : List Fielder) (bd : ℝ) (diff : Difficulty) (u : ℕ → ℝ) :
    ((simulateDelivery es ha va lx ly pd mh fielders bd diff u).outcome = "6" ↔
      ((sanitizeInputs es ha va lx ly pd mh bd).boundary_distance ≤
        (sanitizeInputs es ha va lx ly pd mh bd).projected_distance ∧
       isAerialFlag (sanitizeInputs es ha va lx ly pd mh bd).max_height
         (sanitizeInputs es ha va lx ly pd mh bd).vertical_angle = true ∧
       SIX_HEIGHT_AT_BOUNDARY < getBallHeightAtDistance
         (sanitizeInputs es ha va lx ly pd mh bd).boundary_distance
         (sanitizeInputs es ha va lx ly pd mh bd).projected_distance
         (sanitizeInputs es ha va lx ly pd mh bd).max_height
         (sanitizeInputs es ha va lx ly pd mh bd).vertical_angle)) ∧
    ((simulateDelivery es ha va lx ly pd mh fielders bd diff u).outcome = "6" →
      (simulateDelivery es ha va lx ly pd mh fielders bd diff u).runs = 6 ∧
      (simulateDelivery es ha va lx ly pd mh fielders bd diff u).is_boundary = true) := by
  rw [simulateDelivery_def]
  have hs := simulateCore_spec (sanitizeInputs es ha va lx ly pd mh bd) fielders
    diff (calcTrajectory (sanitizeInputs es ha va lx ly pd mh bd).exit_speed
      (sanitizeInputs es ha va lx ly pd mh bd).horizontal_angle
      (sanitizeInputs es ha va lx ly pd mh bd).vertical_angle) u
  exact ⟨hs.1, fun h6 => ⟨(hs.2.2.1 h6).1, (hs.2.2.1 h6).2.1⟩⟩

/-- C9: the `runs` field of every result is one of 0, 1, 2, 3, 4, 6;
in particular 5 is never produced. -/
theorem C9_runs_range (es ha va lx ly pd mh : ℝ) (fielders : List Fielder)
    (bd : ℝ) (diff : Difficulty) (u : ℕ → ℝ) :
    (simulateDelivery es ha va lx ly pd mh fielders bd diff u).runs ∈
      ({0, 1, 2, 3, 4, 6} : Set ℕ) := by
  rw [simulateDelivery_def]
  exact (simulateCore_spec (sanitizeInputs es ha va lx ly pd mh bd) fielders
    diff (calcTrajectory (sanitizeInputs es ha va lx ly pd mh bd).exit_speed
      (sanitizeInputs es ha va lx ly pd mh bd).horizontal_angle
      (sanitizeInputs es ha va lx ly pd mh bd).vertical_angle) u).2.2.2

/-- The sanitizer is the identity on the witness six input. -/
theorem sixInput_sanitize :
    sanitizeInputs 100 0 20 0 (-90) 90 20 70 =
      { exit_speed := 100, horizontal_angle := 0, vertical_angle := 20,
        landing_x := 0, landing_y := -90, projected_distance := 90,
        max_height := 20, boundary_distance := 70 } := by
  have hfl : ⌊((0:ℝ) + 180.0) / 360.0⌋ = 0 := by
    rw [Int.floor_eq_zero_iff]
    constructor <;> norm_num
  unfold sanitizeInputs normalizeAngle pymod
  simp only [Sanitized.mk.injEq, hfl]
  norm_num [MIN_EXIT_SPEED, MAX_EXIT_SPEED, MIN_VERTICAL_ANGLE,
    MAX_VERTICAL_ANGLE, MAX_DISTANCE, MAX_HEIGHT]

/-- The witness six input satisfies the six conditions. -/
theorem sixInput_conds :
    (sanitizeInputs 100 0 20 0 (-90) 90 20 70).boundary_distance ≤
      (sanitizeInputs 100 0 20 0 (-90) 90 20 70).projected_distance ∧
    isAerialFlag (sanitizeInputs 100 0 20 0 (-90) 90 20 70).max_height
      (sanitizeInputs 100 0 20 0 (-90) 90 20 70).vertical_angle = true ∧
    SIX_HEIGHT_AT_BOUNDARY < getBallHeightAtDistance
      (sanitizeInputs 100 0 20 0 (-90) 90 20 70).boundary_distance
      (sanitizeInputs 100 0 20 0 (-90) 90 20 70).projected_distance
      (sanitizeInputs 100 0 20 0 (-90) 90 20 70).max_height
      (sanitizeInputs 100 0 20 0 (-90) 90 20 70).vertical_angle := by
  rw [sixInput_sanitize]
  refine ⟨by norm_num, ?_, ?_⟩
  · unfold isAerialFlag AERIAL_HEIGHT_THRESHOLD AERIAL_ANGLE_THRESHOLD
    norm_num
  · unfold getBallHeightAtDistance SIX_HEIGHT_AT_BOUNDARY BAT_HEIGHT
    norm_num

/-- The witness six input yields outcome `"6"`. -/
theorem sixInput_outcome :
    (simulateDelivery 100 0 20 0 (-90) 90 20 [] 70 Difficulty.medium
      (fun _ => 0)).outcome = "6" := by
  rw [simulateDelivery_def]
  exact (simulateCore_spec (sanitizeInputs 100 0 20 0 (-90) 90 20 70) []
    Difficulty.medium (calcTrajectory
      (sanitizeInputs 100 0 20 0 (-90) 90 20 70).exit_speed
      (sanitizeInputs 100 0 20 0 (-90) 90 20 70).horizontal_angle
      (sanitizeInputs 100 0 20 0 (-90) 90 20 70).vertical_angle)
    (fun _ => 0)).1.mpr sixInput_conds

theorem C2_witness :
    (simulateDelivery 100 0 20 0 (-90) 90 20 [] 70 Difficulty.medium
      (fun _ => 0)).outcome = "6" ∧
    ((simulateDelivery 100 0 20 0 (-90) 90 20 [] 70 Difficulty.medium
       (fun _ => 0)).runs = 6 ↔
     (simulateDelivery 100 0 20 0 (-90) 90 20 [] 70 Difficulty.medium
       (fun _ => 0)).outcome = "6") ∧
    ((simulateDelivery 100 0 20 0 (-90) 90 20 [] 70 Difficulty.medium
       (fun _ => 0)).is_boundary = true ∧
     (simulateDelivery 100 0 20 0 (-90) 90 20 [] 70 Difficulty.medium
       (fun _ => 0)).is_aerial = true) := by
  have hthm := C2_runs_outcome_six 100 0 20 0 (-90) 90 20 [] 70
    Difficulty.medium (fun _ => 0)
  exact ⟨sixInput_outcome, hthm.1, hthm.2 sixInput_outcome⟩

theorem C3_witness :
    (simulateDelivery 100 0 20 0 (-90) 90 20 [] 70 Difficulty.medium
      (fun _ => 0)).outcome = "6" ∧
    (simulateDelivery 100 0 20 0 (-90) 90 20 [] 70 Difficulty.medium
      (fun _ => 0)).runs = 6 ∧
    (simulateDelivery 100 0 20 0 (-90) 90 20 [] 70 Difficulty.medium
      (fun _ => 0)).is_boundary = true := by
  have hthm := C3_six_characterization 100 0 20 0 (-90) 90 20 [] 70
    Difficulty.medium (fun _ => 0)
  have h6 := hthm.1.mpr sixInput_conds
  exact ⟨h6, hthm.2 h6⟩

/-! ## Concrete-run evaluation helpers -/

theorem distance_eval {x1 y1 x2 y2 d : ℝ} (hd : 0 ≤ d)
    (h : (x2 - x1) * (x2 - x1) + (y2 - y1) * (y2 - y1) = d ^ 2) :
    distance x1 y1 x2 y2 = d := by
  unfold distance
  rw [h]
  exact Real.sqrt_sq hd

theorem normalizeAngle_zero : normalizeAngle 0 = 0 := by
  have hfl : ⌊((0:ℝ) + 180.0) / 360.0⌋ = 0 := by
    rw [Int.floor_eq_zero_iff]
    constructor <;> norm_num
  unfold normalizeAngle pymod
  rw [hfl]
  norm_num

/-- Sanitizer is the identity on the C2 counterexample input. -/
theorem c2Input_sanitize :
    sanitizeInputs 100 0 12 0 (-80) 80 0.3 70 =
      { exit_speed := 100, horizontal_angle := 0, vertical_angle := 12,
        landing_x := 0, landing_y := -80, projected_distance := 80,
        max_height := 0.3, boundary_distance := 70 } := by
  unfold sanitizeInputs
  rw [normalizeAngle_zero]
  simp only [Sanitized.mk.injEq]
  norm_num [MIN_EXIT_SPEED, MAX_EXIT_SPEED, MIN_VERTICAL_ANGLE,
    MAX_VERTICAL_ANGLE, MAX_DISTANCE, MAX_HEIGHT]

/-- Sanitizer is the identity on the C10 input. -/
theorem c10Input_sanitize :
    sanitizeInputs 150 0 0 0 (-50) 50 0.5 70 =
      { exit_speed := 150, horizontal_angle := 0, vertical_angle := 0,
        landing_x := 0, landing_y := -50, projected_distance := 50,
        max_height := 0.5, boundary_distance := 70 } := by
  unfold sanitizeInputs
  rw [normalizeAngle_zero]
  simp only [Sanitized.mk.injEq]
  norm_num [MIN_EXIT_SPEED, MAX_EXIT_SPEED, MIN_VERTICAL_ANGLE,
    MAX_VERTICAL_ANGLE, MAX_DISTANCE, MAX_HEIGHT]

theorem c2_aerial : isAerialFlag 0.3 12 = true := by
  unfold isAerialFlag AERIAL_HEIGHT_THRESHOLD AERIAL_ANGLE_THRESHOLD
  rw [if_pos]
  right
  norm_num

theorem c10_not_aerial : isAerialFlag 0.5 0 = false := by
  unfold isAerialFlag AERIAL_HEIGHT_THRESHOLD AERIAL_ANGLE_THRESHOLD
  rw [if_neg]
  rintro (h | h) <;> norm_num at h

/-- The C2 counterexample shot falls short of 0.5 m at the boundary, so
`_check_six` declines it. -/
theorem c2_checkSix_none (traj : Trajectory) :
    checkSix traj 80 0.3 12 70 true 0 (-80) = none := by
  unfold checkSix
  dsimp only
  rw [if_neg (by norm_num : ¬ (80:ℝ) < 70), if_neg]
  rintro ⟨-, hh⟩
  have hle : getBallHeightAtDistance 70 80 0.3 12 ≤ 0.5 := by
    unfold getBallHeightAtDistance BAT_HEIGHT
    rw [if_neg (by norm_num), if_neg (by norm_num), if_neg (by norm_num)]
    dsimp only
    rw [if_neg (by norm_num), if_neg (by norm_num)]
    apply max_le (by norm_num)
    norm_num
  rw [show SIX_HEIGHT_AT_BOUNDARY = (0.5:ℝ) from rfl] at hh
  linarith

theorem c2_catches_none (traj : Trajectory) :
    evaluateCatches [] traj 80 0.3 0 (-80) 70 Difficulty.medium 100 true
      (fun _ => 0) 0 = none := by
  unfold evaluateCatches
  rw [if_neg]
  · unfold evaluateCatchesBody
    dsimp only
    rw [List.filterMap_nil]
    rfl
  · unfold catchGate CATCH_HEIGHT_MIN
    rw [if_neg (by norm_num)]
    simp

theorem c2_boundary_four_eval :
    checkBoundaryFour 80 70 0 (-80) true =
      some (buildResult "4" 4 true true none
        (getBoundaryIntersection 0 (-80) 70).1
        (getBoundaryIntersection 0 (-80) 70).2 none none) := by
  unfold checkBoundaryFour
  rw [if_neg (by norm_num : ¬ (80:ℝ) < 70)]

/-! ## Claim C2: the six ⇔ boundary∧aerial invariant fails -/

/-- C2 counterexample: an aerial shot (vertical angle 12° > 10°) that
reaches the boundary but crosses it below 0.5 m is a four with
`is_boundary ∧ is_aerial` both true and outcome `"4"` ≠ `"6"`, refuting
`outcome = "6" ⇔ is_boundary ∧ is_aerial`. -/
theorem C2_counterexample :
    ((simulateDelivery 100 0 12 0 (-80) 80 0.3 [] 70 Difficulty.medium
        (fun _ => 0)).outcome,
     (simulateDelivery 100 0 12 0 (-80) 80 0.3 [] 70 Difficulty.medium
        (fun _ => 0)).runs,
     (simulateDelivery 100 0 12 0 (-80) 80 0.3 [] 70 Difficulty.medium
        (fun _ => 0)).is_boundary,
     (simulateDelivery 100 0 12 0 (-80) 80 0.3 [] 70 Difficulty.medium
        (fun _ => 0)).is_aerial) = ("4", 4, true, true) := by
  rw [simulateDelivery_def, c2Input_sanitize]
  unfold simulateCore
  dsimp only
  rw [c2_aerial, c2_checkSix_none, c2_catches_none, c2_boundary_four_eval]
  rfl

/-! ## Claim C10 helpers: the escaped misfield with zero runs -/

theorem gbs_150_3_ge : (30:ℝ) ≤ groundBallSpeed 150 3 := by
  unfold groundBallSpeed GROUND_FRICTION
  rw [if_neg (by norm_num)]
  dsimp only
  refine le_trans ?_ (le_max_right _ _)
  have h := Real.add_one_le_exp (-(0.03:ℝ) * 3 * 0.5)
  linarith

theorem bt_150_3_pos : 0 < ballTravelTime 150 3 := by
  unfold ballTravelTime
  rw [if_neg (by norm_num)]
  exact div_pos (by norm_num)
    (lt_of_lt_of_le (by norm_num) (gbs_ge_three 150 3))

theorem bt_150_3_lt : ballTravelTime 150 3 < 0.4 := by
  unfold ballTravelTime
  rw [if_neg (by norm_num)]
  have h30 := gbs_150_3_ge
  rw [div_lt_iff (by linarith : (0:ℝ) < groundBallSpeed 150 3)]
  linarith

theorem throw_0_neg3 : throwDistance 0 (-3) = 3 := by
  unfold throwDistance PITCH_LENGTH
  have h1 : distance 0 (-3) 0 0 = 3 := distance_eval (by norm_num) (by norm_num)
  have h2 : distance 0 (-3 + 20.12) 0 0 = 17.12 :=
    distance_eval (by norm_num) (by norm_num)
  rw [h1, h2]
  norm_num

theorem ft_150_lt : calculateFieldingTime 150 3 0 0 (-3) < 1 := by
  unfold calculateFieldingTime
  dsimp only
  have hdc : 0 ≤ max 0.0 (ballTravelTime 150 3 - FIELDER_REACTION_TIME) *
      FIELDER_RUN_SPEED :=
    mul_nonneg (le_trans (by norm_num) (le_max_left 0.0 _))
      (by norm_num [FIELDER_RUN_SPEED])
  rw [max_eq_left (by linarith :
    (0:ℝ) - max 0.0 (ballTravelTime 150 3 - FIELDER_REACTION_TIME) *
      FIELDER_RUN_SPEED ≤ 0.0)]
  rw [if_pos (by norm_num : (0.0:ℝ) < 0.5)]
  rw [throw_0_neg3]
  have hbt := bt_150_3_lt
  unfold COLLECTION_TIME_DIRECT THROW_SPEED
  linarith

theorem c10_runs_zero :
    calculateRunsFromFieldingTime (calculateFieldingTime 150 3 0 0 (-3)) true = 0 := by
  have hft := ft_150_lt
  unfold calculateRunsFromFieldingTime MISFIELD_TIME_PENALTY TIME_FOR_FIRST_RUN
  dsimp only
  rw [if_pos rfl, if_pos (by linarith)]

theorem c10_roll :
    rollGroundFieldingOutcome (0.85, 0.10, 0.05) 0.96 = "misfield_extra" := by
  unfold rollGroundFieldingOutcome
  rw [if_neg (by norm_num), if_neg (by norm_num)]

theorem c10_path : isFielderInBallPath ⟨0, -3, "short"⟩ 0 (-50) = true := by
  unfold isFielderInBallPath MIN_SHOT_LENGTH
  have h1 : distance 0 (-50) 0 0 = 50 := distance_eval (by norm_num) (by norm_num)
  rw [h1, if_neg (by norm_num)]
  dsimp only
  have h2 : distance 0 (-3) 0 0 = 3 := distance_eval (by norm_num) (by norm_num)
  rw [h2, if_pos (by norm_num : (3:ℝ) < 10), if_pos]
  norm_num

theorem c10_seg :
    distancePointToLineSegment 0 (-3) 0 0 0 (-50) = (0, 0, -3, 0.06) := by
  unfold distancePointToLineSegment clamp
  rw [if_neg (by norm_num)]
  dsimp only
  have htc : max (0.0:ℝ) (min 1.0 ((((0:ℝ) - 0) * ((0:ℝ) - 0) +
      ((-3:ℝ) - 0) * ((-50:ℝ) - 0)) /
      (((0:ℝ) - 0) * ((0:ℝ) - 0) + ((-50:ℝ) - 0) * ((-50:ℝ) - 0)))) = 0.06 := by
    norm_num
  rw [htc]
  have hd : distance 0 (-3) (0 + 0.06 * ((0:ℝ) - 0))
      (0 + 0.06 * ((-50:ℝ) - 0)) = 0 := by
    apply distance_eval le_rfl
    norm_num
  rw [hd]
  norm_num

theorem c10_chance :
    groundChanceFor 50 0 (-50) 150 ⟨0, -3, "short"⟩ =
      some (⟨0, -3, "short"⟩, 0, 3) := by
  unfold groundChanceFor
  rw [c10_path, if_neg (by simp)]
  dsimp only
  rw [c10_seg]
  dsimp only
  rw [if_neg (by norm_num [FIELDER_PATH_START_T])]
  have h2 : distance 0 (-3) 0 0 = 3 := distance_eval (by norm_num) (by norm_num)
  rw [h2]
  rw [if_pos]
  have hmr : 0 ≤ max 0.0 (ballTravelTime 150 3 - FIELDER_REACTION_TIME) *
      FIELDER_RUN_SPEED :=
    mul_nonneg (le_trans (by norm_num) (le_max_left 0.0 _))
      (by norm_num [FIELDER_RUN_SPEED])
  constructor
  · unfold GROUND_FIELDING_RANGE
    linarith
  · unfold GROUND_FIELDING_RANGE
    linarith

theorem c10_ground :
    evaluateGroundFielding [⟨0, -3, "short"⟩] 50 0 (-50) 150 false
      (0.85, 0.10, 0.05) (fun _ => 0.96) 0 =
    some (buildResult "misfield" 0 false false (some ⟨0, -3, "short"⟩)
      0 (-50) none none) := by
  unfold evaluateGroundFielding
  dsimp only
  have hfm : List.filterMap (groundChanceFor 50 0 (-50) 150)
      [⟨0, -3, "short"⟩] = [(⟨0, -3, "short"⟩, 0, 3)] := by
    simp [List.filterMap_cons, c10_chance]
  rw [hfm]
  have hsorted : sortByKey (fun c : Fielder × ℝ × ℝ => c.2.1)
      [(⟨0, -3, "short"⟩, 0, 3)] = [(⟨0, -3, "short"⟩, 0, 3)] := by
    simp [sortByKey, insertByKey]
  rw [hsorted]
  unfold processGroundChances
  dsimp only
  rw [c10_roll]
  rw [if_neg (by decide), if_neg (by decide)]
  rw [c10_runs_zero]

theorem c10_checkSix_none (traj : Trajectory) :
    checkSix traj 50 0.5 0 70 false 0 (-50) = none := by
  unfold checkSix
  rw [if_pos (by norm_num : (50:ℝ) < 70)]

theorem c10_catches_none (traj : Trajectory) :
    evaluateCatches [⟨0, -3, "short"⟩] traj 50 0.5 0 (-50) 70
      Difficulty.medium 150 false (fun _ => 0.96) 0 = none := by
  unfold evaluateCatches
  rw [if_pos]
  unfold catchGate
  rw [if_pos (Or.inl rfl)]

theorem c10_four_none :
    checkBoundaryFour 50 70 0 (-50) false = none := by
  unfold checkBoundaryFour
  rw [if_pos (by norm_num : (50:ℝ) < 70)]

/-! ## Claim C10: escaped misfield with zero runs -/

/-- C10: there is an input and a draw sequence on which the escaped
ground-fielding branch returns outcome `"misfield"` with `runs = 0`
(the escaped branch applies no `max(1, ·)` floor, unlike the fumbled
branch): a fielder three metres from the bat stops nothing when the
roll is 0.96, and the fielding time plus the 2.5 s misfield penalty
stays under the 3.5 s first-run threshold. -/
theorem C10_escaped_zero_runs :
    ((simulateDelivery 150 0 0 0 (-50) 50 0.5 [⟨0, -3, "short"⟩] 70
        Difficulty.medium (fun _ => 0.96)).outcome,
     (simulateDelivery 150 0 0 0 (-50) 50 0.5 [⟨0, -3, "short"⟩] 70
        Difficulty.medium (fun _ => 0.96)).runs) = ("misfield", 0) := by
  rw [simulateDelivery_def, c10Input_sanitize]
  unfold simulateCore
  dsimp only
  rw [c10_not_aerial, c10_checkSix_none, c10_catches_none, c10_four_none]
  have hprobs : groundFieldingProbs Difficulty.medium = (0.85, 0.10, 0.05) := rfl
  rw [hprobs, c10_ground]
  rfl

/-! ## Claim C4: time-to-runs conversion -/

/-- C4: for every finite non-negative fielding time `t`, the
time-to-runs conversion (without misfield penalty) returns 0 runs for
`t < 3.5`, 1 for `3.5 ≤ t < 6`, 2 for `6 ≤ t < 8.5`, 3 for `t ≥ 8.5`,
and never more than 3. -/
theorem C4_time_to_runs (t : ℝ) (h : 0 ≤ t) :
    calculateRunsFromFieldingTime t false =
      (if t < 3.5 then 0 else if t < 6 then 1 else if t < 8.5 then 2 else 3) ∧
    calculateRunsFromFieldingTime t false ≤ 3 := by
  unfold calculateRunsFromFieldingTime TIME_FOR_FIRST_RUN TIME_FOR_EXTRA_RUN
  simp only [Bool.false_eq_true, if_false]
  constructor
  · split_ifs <;> first | rfl | linarith
  · split_ifs <;> norm_num

theorem C4_witness :
    (0 : ℝ) ≤ 7 ∧
    (calculateRunsFromFieldingTime 7 false =
      (if (7:ℝ) < 3.5 then 0 else if (7:ℝ) < 6 then 1 else if (7:ℝ) < 8.5 then 2 else 3) ∧
     calculateRunsFromFieldingTime 7 false ≤ 3) :=
  ⟨by norm_num, C4_time_to_runs 7 (by norm_num)⟩

/-! ## Claim C5: catch roll -/

/-- C5: for a catch analysis with difficulty `D ∈ [0,1]` and any
difficulty level, the roll returns `"caught"` exactly when the uniform
draw `u` satisfies `u < min 0.99 ((0.98 − 0.52·D)·m)` where `m` is the
level's catch-difficulty modifier, and `"dropped"` otherwise. -/
theorem C5_catch_roll (analysis : CatchAnalysis) (difficulty : Difficulty)
    (u : ℝ) (h0 : 0 ≤ analysis.difficulty) (h1 : analysis.difficulty ≤ 1) :
    (rollCatchOutcome analysis difficulty u = "caught" ↔
      u < min 0.99 ((0.98 - 0.52 * analysis.difficulty) *
        catchDifficultyModifier difficulty)) ∧
    (rollCatchOutcome analysis difficulty u = "dropped" ↔
      ¬ u < min 0.99 ((0.98 - 0.52 * analysis.difficulty) *
        catchDifficultyModifier difficulty)) := by
  unfold rollCatchOutcome
  dsimp only
  split_ifs with hu
  · refine ⟨⟨fun _ => hu, fun _ => rfl⟩, ⟨fun hx => absurd hx (by decide), fun hx => absurd hu hx⟩⟩
  · exact ⟨⟨fun hx => absurd hx (by decide), fun hx => absurd hx hu⟩, ⟨fun _ => hu, fun _ => rfl⟩⟩

theorem C5_witness :
    (0 : ℝ) ≤ sampleAnalysis.difficulty ∧ sampleAnalysis.difficulty ≤ 1 ∧
    ((rollCatchOutcome sampleAnalysis Difficulty.medium 0.5 = "caught" ↔
      (0.5 : ℝ) < min 0.99 ((0.98 - 0.52 * sampleAnalysis.difficulty) *
        catchDifficultyModifier Difficulty.medium)) ∧
     (rollCatchOutcome sampleAnalysis Difficulty.medium 0.5 = "dropped" ↔
      ¬ (0.5 : ℝ) < min 0.99 ((0.98 - 0.52 * sampleAnalysis.difficulty) *
        catchDifficultyModifier Difficulty.medium))) :=
  ⟨by norm_num [sampleAnalysis], by norm_num [sampleAnalysis],
    C5_catch_roll sampleAnalysis Difficulty.medium 0.5
      (by norm_num [sampleAnalysis]) (by norm_num [sampleAnalysis])⟩

/-! ## Claim C6: angle normalization range -/

/-- C6 counterexample: the claim says the normalized angle lies in
`(−180, 180]` and is never `−180`, in particular at `x = 180`; but the
Python float `%` lands `((180 + 180) mod 360) − 180` exactly on `−180`. -/
theorem C6_counterexample :
    normalizeAngle 180 = -180 ∧ ¬ (-180 < normalizeAngle 180) := by
  have hfl : ⌊((180:ℝ) + 180.0) / 360.0⌋ = 1 := by
    have : ((180:ℝ) + 180.0) / 360.0 = 1 := by norm_num
    rw [this, Int.floor_one]
  have h : normalizeAngle 180 = -180 := by
    unfold normalizeAngle pymod
    rw [hfl]
    norm_num
  exact ⟨h, by rw [h]; norm_num⟩

/-- C6 amended: the normalization `((x + 180) mod 360) − 180` maps every
real angle into the half-open interval `[−180, 180)` (closed on the
left, open on the right), and the value `−180` is attained at `x = 180`. -/
theorem C6_amended :
    (∀ x : ℝ, -180 ≤ normalizeAngle x ∧ normalizeAngle x < 180) ∧
    normalizeAngle 180 = -180 := by
  constructor
  · intro x
    unfold normalizeAngle pymod
    have hfl := Int.floor_le ((x + 180.0) / 360.0)
    have hfu := Int.lt_floor_add_one ((x + 180.0) / 360.0)
    rw [le_div_iff (by norm_num : (0:ℝ) < 360.0)] at hfl
    rw [div_lt_iff (by norm_num : (0:ℝ) < 360.0)] at hfu
    constructor <;> nlinarith
  · have hfl : ⌊((180:ℝ) + 180.0) / 360.0⌋ = 1 := by
      have : ((180:ℝ) + 180.0) / 360.0 = 1 := by norm_num
      rw [this, Int.floor_one]
    unfold normalizeAngle pymod
    rw [hfl]
    norm_num

/-! ## Claim C7: ground travel time monotone in exit speed -/

/-- C7: for every distance `d > 0` and exit speeds `s1 ≤ s2`, the
ground-ball travel time to `d` under `s2` is no greater than under `s1`
(the friction-decayed average speed is non-decreasing in exit speed). -/
theorem C7_travel_time_mono (d s1 s2 : ℝ) (hd : 0 < d) (hs : s1 ≤ s2) :
    ballTravelTime s2 d ≤ ballTravelTime s1 d := by
  unfold ballTravelTime
  rw [if_neg (by linarith), if_neg (by linarith)]
  have h1 := gbs_ge_three s1 d
  have h2 := gbs_mono d s1 s2 hs
  exact div_le_div_of_nonneg_left hd.le (by linarith) h2

theorem C7_witness :
    (0 : ℝ) < 10 ∧ (50 : ℝ) ≤ 60 ∧ ballTravelTime 60 10 ≤ ballTravelTime 50 10 :=
  ⟨by norm_num, by norm_num, C7_travel_time_mono 10 50 60 (by norm_num) (by norm_num)⟩

/-! ## Claim C8: determinism -/

/-- C8: two invocations of `simulate_delivery` with identical arguments
and an identical stream of uniform draws produce identical results: the
embedded pipeline is a pure function of its inputs and the draw stream. -/
theorem C8_deterministic (es h v lx ly pd mh : ℝ) (fielders : List Fielder)
    (bd : ℝ) (diff : Difficulty) (u1 u2 : ℕ → ℝ) (hu : u1 = u2) :
    simulateDelivery es h v lx ly pd mh fielders bd diff u1 =
      simulateDelivery es h v lx ly pd mh fielders bd diff u2 := by
  rw [hu]

theorem C8_witness :
    (fun _ : ℕ => (0.5 : ℝ)) = (fun _ : ℕ => (0.5 : ℝ)) ∧
    simulateDelivery 100 10 5 20 (-40) 45 2 [] 70 Difficulty.medium
        (fun _ => 0.5) =
      simulateDelivery 100 10 5 20 (-40) 45 2 [] 70 Difficulty.medium
        (fun _ => 0.5) :=
  ⟨rfl, C8_deterministic 100 10 5 20 (-40) 45 2 [] 70 Difficulty.medium
    (fun _ => 0.5) (fun _ => 0.5) rfl⟩

/-! ## Claim C1: catch gating -/

/-- C1 counterexample: the claim says any sanitized shot with
`max_height ≥ CATCH_HEIGHT_MIN` is considered for catching regardless of
the aerial flag; but for `max_height = 0.5`, `vertical_angle = 0` the
shot is not aerial and the `_evaluate_catches` early-return gate closes,
so no fielder is considered. -/
theorem C1_counterexample :
    CATCH_HEIGHT_MIN ≤ (0.5 : ℝ) ∧ isAerialFlag 0.5 0 = false ∧
    catchGate (isAerialFlag 0.5 0) 0.5 = false := by
  refine ⟨by norm_num [CATCH_HEIGHT_MIN], ?_, ?_⟩
  · unfold isAerialFlag AERIAL_HEIGHT_THRESHOLD AERIAL_ANGLE_THRESHOLD
    norm_num
  · unfold catchGate isAerialFlag AERIAL_HEIGHT_THRESHOLD AERIAL_ANGLE_THRESHOLD
      CATCH_HEIGHT_MIN
    norm_num

/-- C1 amended: catch consideration is gated by the conjunction of the
aerial flag and `max_height ≥ CATCH_HEIGHT_MIN`: `_evaluate_catches`
runs its per-fielder evaluation exactly when `is_aerial` holds and
`max_height ≥ 0.2`, and returns `None` without considering any fielder
otherwise. -/
theorem C1_amended (fielders : List Fielder) (traj : Trajectory)
    (pd mh lx ly bd : ℝ) (diff : Difficulty) (es : ℝ) (ia : Bool)
    (u : ℕ → ℝ) (k : ℕ) :
    evaluateCatches fielders traj pd mh lx ly bd diff es ia u k =
      if ia = true ∧ CATCH_HEIGHT_MIN ≤ mh then
        evaluateCatchesBody fielders traj pd mh lx ly bd diff es u k
      else none := by
  unfold evaluateCatches catchGate
  cases ia with
  | false => simp
  | true =>
    by_cases hm : mh < CATCH_HEIGHT_MIN
    · simp [hm, not_le.mpr hm]
    · simp [hm, not_lt.mp hm]

end

end CricketEngine
